import Mathlib

/-!
Shallow embedding of the kalshi-research-assistant pipeline core:
the identifier extractor (src/graph/kalshi_api.py), the pipeline state
(src/graph/state.py), the validators (src/graph/validators.py), the stage
functions (src/graph/nodes.py) and the orchestrator (src/graph/workflow.py).

External collaborators (the Anthropic model call, the HTTP fetch, the JSON
library) are modelled as oracle parameters; machine floats are modelled as
rationals; Python exceptions are modelled as explicit fault values carried
next to the (already mutated) state, matching CPython in-place mutation.
-/

namespace KalshiModel

/-! ## Python string primitives, modelled over the code-point list -/

/-- Model of Python str.strip(): drop leading and trailing whitespace. -/
def pyStrip (s : String) : String :=
  String.mk (((s.toList.dropWhile Char.isWhitespace).reverse.dropWhile
    Char.isWhitespace).reverse)

/-- Model of Python str.upper() for the ASCII range. -/
def pyUpper (s : String) : String :=
  String.mk (s.toList.map Char.toUpper)

/-- Model of Python str.startswith(pre). -/
def pyStartswith (s pre : String) : Bool :=
  s.toList.take pre.length == pre.toList

/-- Python truthiness of a string: nonempty. -/
def truthyStr (s : String) : Bool := s ≠ ""

/-- Python truthiness of an optional string field (None or empty are falsy). -/
def truthyOpt (o : Option String) : Bool :=
  match o with
  | none => false
  | some s => s ≠ ""

/-- Index of the first occurrence of sub in l, if any (Python str.find). -/
def findSubIdx (sub : List Char) : List Char → Option Nat
  | [] => if sub.isEmpty then some 0 else none
  | c :: t => if sub.isPrefixOf (c :: t) then some 0 else (findSubIdx sub t).map (· + 1)

/-- Model of `sub in s` for Python strings. -/
def containsSub (s sub : String) : Bool := (findSubIdx sub.toList s.toList).isSome

/-- Model of Python str.find: index of first occurrence or -1. -/
def pyFind (s sub : String) : Int :=
  match findSubIdx sub.toList s.toList with
  | some n => (n : Int)
  | none => -1

/-- Normalize a Python index against a length: negative counts from the end,
then clamp into [0, len]. -/
def pyIndexNorm (len : Nat) (i : Int) : Nat :=
  let j := if i < 0 then i + len else i
  if j < 0 then 0 else min j.toNat len

/-- Model of the Python slice s[a:b]. -/
def pySlice (s : String) (a b : Int) : String :=
  let l := s.toList
  String.mk ((l.take (pyIndexNorm l.length b)).drop (pyIndexNorm l.length a))

/-- Model of Python str.find with a start position: search in s[start:],
reporting an absolute index or -1. -/
def pyFindFrom (s sub : String) (start : Int) : Int :=
  let base := pyIndexNorm s.toList.length start
  match findSubIdx sub.toList (s.toList.drop base) with
  | some n => ((base + n : Nat) : Int)
  | none => -1

/-- Model of Python str.rfind: index of the last occurrence or -1. -/
def pyRfind (s sub : String) : Int :=
  let l := s.toList
  let r := findSubIdx sub.toList.reverse l.reverse
  match r with
  | some j => ((l.length - sub.length - j : Nat) : Int)
  | none => -1

/-! ## kalshi_api.py: identifier extraction -/

/-- Character class of the regex [a-zA-Z0-9-] used on URL path segments. -/
def isMixedTickerChar (c : Char) : Bool := c.isAlphanum || c == '-'

/-- Character class of the regex [A-Z0-9-] used on direct identifiers. -/
def isUpperTickerChar (c : Char) : Bool := c.isUpper || c.isDigit || c == '-'

/-- Word character for the regex word boundary, ASCII model of backslash-b. -/
def isWordChar (c : Char) : Bool := c.isAlphanum || c == '_'

/-- Modelled from the Python standard library: urlparse(url).path for
http(s)-style URLs. Fragment and query are cut off; when the remainder has a
scheme://netloc shape, the path is everything from the first slash after the
netloc; a plain scheme:rest keeps rest; otherwise the whole text is the path. -/
def urlPath (url : String) : String :=
  let noFrag :=
    match pyFind url "#" with
    | (-1) => url
    | i => pySlice url 0 i
  let noQuery :=
    match pyFind noFrag "?" with
    | (-1) => noFrag
    | i => pySlice noFrag 0 i
  match pyFind noQuery "://" with
  | (-1) =>
      if pyStartswith noQuery "https:" then pySlice noQuery 6 noQuery.length
      else if pyStartswith noQuery "http:" then pySlice noQuery 5 noQuery.length
      else noQuery
  | i =>
      let after := pySlice noQuery (i + 3) noQuery.length
      match pyFind after "/" with
      | (-1) => ""
      | j => pySlice after j after.length

/-- Model of Python str.split(sep) for a single-character separator,
structurally recursive on the character list. -/
def splitOnChar (sep : Char) : List Char → List (List Char)
  | [] => [[]]
  | c :: t =>
      if c = sep then [] :: splitOnChar sep t
      else
        match splitOnChar sep t with
        | [] => [[c]]
        | h :: r => (c :: h) :: r

/-- Translation of extract_ticker_from_url (kalshi_api.py): last nonempty path
segment, accepted when it fully matches [a-zA-Z0-9-]+, uppercased. -/
def extract_ticker_from_url (url : String) : Option String :=
  let pathParts := ((splitOnChar '/' (urlPath url).toList).map String.mk).filter (fun p => p ≠ "")
  match pathParts.getLast? with
  | none => none
  | some ticker =>
      if ticker.toList ≠ [] ∧ ticker.toList.all isMixedTickerChar then
        some (pyUpper ticker)
      else none

/-- The common-word exclusion set of extract_ticker_from_input. -/
def common_words : List String :=
  ["THE", "AND", "FOR", "THIS", "WILL", "NOT", "YES", "MARKET"]

/-- Length of the greedy run of [A-Z0-9-] characters at the front. -/
def runLen (l : List Char) : Nat := (l.takeWhile isUpperTickerChar).length

/-- Does the regex word boundary hold right after consuming first plus k
characters of rest. -/
def boundaryAfter (first : Char) (rest : List Char) (k : Nat) : Bool :=
  let lastC := (rest.take k).getLastD first
  let next := (rest.drop k).head?
  isWordChar lastC != (next.map isWordChar).getD false

/-- Length taken by the greedy, backtracking tail [A-Z0-9-]{2,} followed by a
word boundary, when a match starting at first exists. -/
def matchLen (first : Char) (rest : List Char) : Option Nat :=
  ((List.range (runLen rest + 1)).reverse).find?
    (fun k => decide (2 ≤ k) && boundaryAfter first rest k)

/-- Model of re.findall with the raw pattern word-boundary
([A-Z][A-Z0-9-]{2,}) word-boundary: left-to-right scan, greedy tail with
backtracking on the final boundary, non-overlapping matches. prev is the
character just before the scan position. -/
def tickerScan : List Char → Option Char → List String
  | [], _ => []
  | c :: rest, prev =>
      if c.isUpper && !((prev.map isWordChar).getD false) then
        match matchLen c rest with
        | some k =>
            String.mk (c :: rest.take k) ::
              tickerScan (rest.drop k) (some ((rest.take k).getLastD c))
        | none => tickerScan rest (some c)
      else tickerScan rest (some c)
termination_by l _ => l.length
decreasing_by
  · simp [List.length_drop]; omega
  · simp
  · simp

/-- Translation of extract_ticker_from_input (kalshi_api.py): strip, URL rule,
direct-identifier rule (full match of [A-Z0-9-]+ on the uppercased text and
length at most 50), then the token scan filtered by the common-word list. -/
def extract_ticker_from_input (user_input : String) : Option String :=
  let s := pyStrip user_input
  if pyStartswith s "http" then extract_ticker_from_url s
  else if ((pyUpper s).toList ≠ [] ∧ (pyUpper s).toList.all isUpperTickerChar)
      ∧ s.length ≤ 50 then
    some (pyUpper s)
  else
    (tickerScan (pyUpper s).toList none).find? (fun m => !common_words.contains m)

/-! ## state.py: the pipeline state record -/

/-- Entry of the market_odds list (state.py MarketOdds). Prices are modelled
as rationals. -/
structure MarketOdds where
  outcome : String
  implied_probability : ℚ
  current_price : Option ℚ
deriving Repr, DecidableEq

/-- Entry of estimated_probabilities (state.py ProbabilityEstimate). -/
structure ProbabilityEstimate where
  outcome : String
  estimated_probability : ℚ
  reasoning : String
deriving Repr, DecidableEq

/-- Entry of pricing_comparison (state.py PricingComparison). -/
structure PricingComparison where
  outcome : String
  market_probability : ℚ
  estimated_probability : ℚ
  difference : ℚ
  assessment : String
deriving Repr, DecidableEq

/-- Entry of persona_recommendations (state.py PersonaRecommendation). -/
structure PersonaRecommendation where
  persona : String
  suggested_position : String
  rationale : String
  key_risks : List String
deriving Repr, DecidableEq

/-- Entry of scenarios (state.py Scenario); stype models the "type" key. -/
structure Scenario where
  stype : String
  description : String
  probability_shift : String
  key_triggers : List String
deriving Repr, DecidableEq

/-- Translation of KalshiResearchState (state.py), with the dataclass
defaults. -/
structure KalshiResearchState where
  user_market_input : String := ""
  market_title : Option String := none
  market_url_or_id : Option String := none
  input_validation_error : Option String := none
  resolution_criteria : Option String := none
  expiration_date : Option String := none
  market_odds : List MarketOdds := []
  research_summary : Option String := none
  sources : List String := []
  estimated_probabilities : List ProbabilityEstimate := []
  confidence_level : Option String := none
  pricing_comparison : List PricingComparison := []
  edge_analysis : Option String := none
  persona_recommendations : List PersonaRecommendation := []
  scenarios : List Scenario := []
  final_output : Option String := none
  current_step : String := "not_started"
  errors : List String := []
deriving Repr, DecidableEq

/-- The state the orchestrator constructs at the start of run (workflow.py
line 90): every field at its dataclass default except the raw input. -/
def initState (input : String) : KalshiResearchState :=
  { user_market_input := input }

/-! ## validators.py -/

/-- Model of the Python format spec .2f on a rational (used only inside one
error message; ties are rounded half away from zero here while CPython uses
the shortest-decimal float path, no claim depends on the digits). -/
def formatRat2 (q : ℚ) : String :=
  let n : ℤ := round (q * 100)
  let sign := if n < 0 then "-" else ""
  let a := n.natAbs
  (sign ++ toString (a / 100)) ++ ("." ++ (if a % 100 < 10 then "0" else "") ++ toString (a % 100))

/-- Translation of validate_user_input: the raw input must be truthy and
nonblank, else a ValidationError with this message. -/
def validate_user_input (s : KalshiResearchState) : Except String Unit :=
  if !truthyStr s.user_market_input || !truthyStr (pyStrip s.user_market_input) then
    .error "No market input provided. Please provide a Kalshi market URL, ID, or description."
  else .ok ()

/-- Translation of validate_market_ingested. -/
def validate_market_ingested (s : KalshiResearchState) : Except String Unit :=
  if truthyOpt s.input_validation_error then
    .error ("Market input validation failed: " ++ s.input_validation_error.getD "")
  else if !truthyOpt s.market_title then
    .error "Market title not extracted. Cannot proceed without identified market."
  else .ok ()

/-- Translation of validate_market_parsed. -/
def validate_market_parsed (s : KalshiResearchState) : Except String Unit :=
  if !truthyOpt s.resolution_criteria then
    .error "Resolution criteria not extracted. Cannot research without knowing what resolves the market."
  else if s.market_odds = [] then
    .error "Market odds not extracted. Cannot proceed without current pricing."
  else .ok ()

/-- Translation of validate_research_complete. -/
def validate_research_complete (s : KalshiResearchState) : Except String Unit :=
  if !truthyOpt s.research_summary then
    .error "Research summary missing. Cannot estimate probabilities without research."
  else if s.sources = [] then
    .error "No sources provided. Research must cite verifiable sources."
  else .ok ()

/-- The sum the probability validator computes. -/
def estSum (s : KalshiResearchState) : ℚ :=
  (s.estimated_probabilities.map (fun p => p.estimated_probability)).sum

/-- Translation of validate_probabilities_estimated: estimates nonempty, sum
within [0.95, 1.05], confidence truthy. -/
def validate_probabilities_estimated (s : KalshiResearchState) : Except String Unit :=
  if s.estimated_probabilities = [] then
    .error "No probability estimates. Cannot analyze mispricing without estimates."
  else if !((95 : ℚ)/100 ≤ estSum s ∧ estSum s ≤ (105 : ℚ)/100) then
    .error (("Probability estimates sum to " ++ formatRat2 (estSum s)) ++
      ", should be ~1.0. Please revise estimates to ensure they form a valid probability distribution.")
  else if !truthyOpt s.confidence_level then
    .error "Confidence level not specified. Must indicate low/medium/high confidence."
  else .ok ()

/-- Translation of validate_mispricing_analyzed. -/
def validate_mispricing_analyzed (s : KalshiResearchState) : Except String Unit :=
  if s.pricing_comparison = [] then
    .error "Pricing comparison missing. Cannot make recommendations without mispricing analysis."
  else if !truthyOpt s.edge_analysis then
    .error "Edge analysis missing. Must explain potential edges before recommendations."
  else .ok ()

/-- Translation of validate_personas_covered. The set difference is modelled
as a deduplicated filter in the order of required_personas (CPython iterates
a hash set; only emptiness of the difference affects control flow). -/
def validate_personas_covered (s : KalshiResearchState)
    (required_personas : List String) : Except String Unit :=
  if s.persona_recommendations = [] then
    .error "No persona recommendations generated."
  else
    let covered := s.persona_recommendations.map (fun r => r.persona)
    let missing := (required_personas.dedup).filter (fun p => p ∉ covered)
    if missing ≠ [] then
      .error ("Missing recommendations for personas: " ++ String.intercalate ", " missing)
    else .ok ()

/-- Translation of validate_scenarios_complete, with the same set-order
modelling note as validate_personas_covered. -/
def validate_scenarios_complete (s : KalshiResearchState) : Except String Unit :=
  if s.scenarios = [] then
    .error "No scenarios generated. Must include best/worst/most-likely scenarios."
  else
    let types := s.scenarios.map (fun sc => sc.stype)
    let missing := (["best_case", "worst_case", "most_likely"]).filter (fun t => t ∉ types)
    if missing ≠ [] then
      .error ("Missing scenario types: " ++ String.intercalate ", " missing)
    else .ok ()

/-- Translation of validate_ready_for_output: the composite gate, first
failure wins. -/
def validate_ready_for_output (s : KalshiResearchState)
    (required_personas : List String) : Except String Unit := do
  validate_market_ingested s
  validate_market_parsed s
  validate_research_complete s
  validate_probabilities_estimated s
  validate_mispricing_analyzed s
  validate_personas_covered s required_personas
  validate_scenarios_complete s

/-! ## nodes.py: JSON extraction from a model response -/

/-- Translation of the fence-stripping prefix of parse_json_response
(nodes.py lines 57-65): the reassignments of response before json.loads. -/
def stripFences (r : String) : String :=
  if containsSub r "```json" then
    let start := pyFind r "```json" + 7
    pyStrip (pySlice r start (pyFindFrom r "```" start))
  else if containsSub r "```" then
    let start := pyFind r "```" + 3
    pyStrip (pySlice r start (pyFindFrom r "```" start))
  else r

/-- Translation of the try/except body of parse_json_response (nodes.py lines
67-75): loads models json.loads, failing with the library message; on failure
the substring from the first opening brace to one past the last closing brace
is parsed instead, and without braces a descriptive ValueError is raised. -/
def jsonAttempt {J : Type} (loads : String → Except String J) (t : String) :
    Except String J :=
  match loads t with
  | .ok j => .ok j
  | .error _ =>
      let a := pyFind t "\x7b"
      let b := pyRfind t "\x7d" + 1
      if a ≠ -1 ∧ b ≠ 0 then loads (pySlice t a b)
      else .error (("Could not parse JSON from response: " ++
        String.mk (t.toList.take 200)) ++ "...")

/-- Translation of parse_json_response (nodes.py). -/
def parse_json_response {J : Type} (loads : String → Except String J)
    (response : String) : Except String J :=
  jsonAttempt loads (stripFences response)

/-! ## nodes.py: stage functions

Each stage makes one external model call and parses it; that pair is modelled
by a per-stage oracle value: raise is an exception escaping the node body (a
failing API call or missing skill file), parseFail is a ValueError or
KeyError caught by the node after parse_json_response, and parsed carries the
fields the node reads off the decoded dict. A node returns the mutated state
together with an optional escaped fault, matching CPython in-place mutation
up to the point the exception was raised. -/

/-- Outcome of one model call as a node observes it. -/
inductive StageCall (α : Type) where
  | raise (msg : String)
  | parseFail (msg : String)
  | parsed (a : α)

/-- Result of running one node: the state as mutated so far, plus the fault
when an exception escaped the node. -/
structure NodeResult where
  state : KalshiResearchState
  fault : Option String
deriving Repr, DecidableEq

/-- Fields market_ingestor_node reads off the decoded response. -/
structure Node1Parsed where
  validation_status : Option String
  market_title : Option String
  market_url_or_id : Option String
  validation_message : Option String

/-- Translation of market_ingestor_node (nodes.py). -/
def market_ingestor_node (c : StageCall Node1Parsed) (s : KalshiResearchState) :
    NodeResult :=
  let s := { s with current_step := "market_ingestor" }
  match validate_user_input s with
  | .error m =>
      ⟨{ s with input_validation_error := some m, errors := s.errors ++ [m] }, none⟩
  | .ok _ =>
      match c with
      | .raise m => ⟨s, some m⟩
      | .parseFail m =>
          ⟨{ s with input_validation_error := some ("Failed to parse market: " ++ m),
                    errors := s.errors ++ [m] }, none⟩
      | .parsed p =>
          if p.validation_status == some "valid" then
            ⟨{ s with market_title := p.market_title,
                      market_url_or_id := p.market_url_or_id }, none⟩
          else if p.validation_status == some "needs_clarification" then
            ⟨{ s with input_validation_error := some (p.validation_message.getD "Clarification needed") }, none⟩
          else
            ⟨{ s with input_validation_error := some (p.validation_message.getD "Invalid market input") }, none⟩

/-- Translation of KalshiMarketData (kalshi_api.py), floats as rationals. -/
structure KalshiMarketData where
  ticker : String
  title : String
  rules_primary : String
  rules_secondary : Option String
  expiration_time : String
  status : String
  yes_bid : ℚ
  yes_ask : ℚ
  no_bid : ℚ
  no_ask : ℚ
  last_price : ℚ
  volume : ℤ
deriving Repr, DecidableEq

/-- Outcome of fetch_market as market_parser_node observes it: a record, a
KalshiAPIError it catches, or an exception escaping the node. -/
inductive FetchResult where
  | ok (r : KalshiMarketData)
  | apiError (msg : String)
  | raise (msg : String)

/-- Fields the fallback branch of market_parser_node reads off the decoded
response; market_odds models result.get with the empty-list default. -/
structure Node2Parsed where
  resolution_criteria : Option String
  expiration_date : Option String
  market_odds : List MarketOdds

/-- Oracle of market_parser_node: the gateway keyed by ticker, and the model
call of the Claude fallback branch. -/
structure Node2Oracle where
  fetch : String → FetchResult
  fallback : StageCall Node2Parsed

/-- Model of Python round(x, 4) on a rational (CPython rounds ties to even,
this model rounds ties half up; no claim evaluates at a tie). -/
def round4 (q : ℚ) : ℚ := ((round (q * 10000) : ℤ) : ℚ) / 10000

/-- The ticker resolution at the top of market_parser_node (nodes.py lines
137-139): extract from the raw user input, and when that is falsy and a
market_url_or_id is truthy, retry on market_url_or_id. -/
def node2Ticker (s : KalshiResearchState) : Option String :=
  let t0 := extract_ticker_from_input s.user_market_input
  if !truthyOpt t0 && truthyOpt s.market_url_or_id then
    extract_ticker_from_input (s.market_url_or_id.getD "")
  else t0

/-- The implied-probability pair computed inside the fetch branch of
market_parser_node (nodes.py lines 154-161), before rounding: the bid/ask
midpoints with last-price fallbacks and the final last-price override. -/
def impliedMid (r : KalshiMarketData) : ℚ × ℚ :=
  let yes_mid := if r.yes_ask ≠ 0 then (r.yes_bid + r.yes_ask) / 2 else r.last_price
  let no_mid := if r.no_ask ≠ 0 then (r.no_bid + r.no_ask) / 2 else 1 - r.last_price
  if yes_mid = 0 ∧ r.last_price ≠ 0 then (r.last_price, 1 - r.last_price)
  else (yes_mid, no_mid)

/-- The Claude fallback branch of market_parser_node (nodes.py lines
182-204). -/
def market_parser_fallback (c : StageCall Node2Parsed)
    (s : KalshiResearchState) : NodeResult :=
  match c with
  | .raise m => ⟨s, some m⟩
  | .parseFail m =>
      ⟨{ s with errors := s.errors ++ ["Failed to parse market mechanics: " ++ m] }, none⟩
  | .parsed p =>
      ⟨{ s with resolution_criteria := p.resolution_criteria,
                expiration_date := p.expiration_date,
                market_odds := p.market_odds }, none⟩

/-- Translation of market_parser_node (nodes.py): validator gate, ticker
extraction, API fetch with implied-probability derivation, and the fallback
branch on a caught KalshiAPIError or an untruthy ticker. -/
def market_parser_node (o : Node2Oracle) (s : KalshiResearchState) : NodeResult :=
  let s := { s with current_step := "market_parser" }
  match validate_market_ingested s with
  | .error m => ⟨{ s with errors := s.errors ++ [m] }, none⟩
  | .ok _ =>
      let ticker := node2Ticker s
      if truthyOpt ticker then
        match o.fetch (ticker.getD "") with
        | .raise m => ⟨s, some m⟩
        | .apiError m =>
            market_parser_fallback o.fallback
              { s with errors := s.errors ++ ["Kalshi API: " ++ m] }
        | .ok r =>
            let rc :=
              if truthyOpt r.rules_secondary then
                (r.rules_primary ++ "\n\nAdditional terms: ") ++ r.rules_secondary.getD ""
              else r.rules_primary
            let p := impliedMid r
            ⟨{ s with resolution_criteria := some rc,
                      expiration_date := some r.expiration_time,
                      market_title := if truthyStr r.title then some r.title else s.market_title,
                      market_odds :=
                        [⟨"Yes", round4 p.1, some (round4 p.1)⟩,
                         ⟨"No", round4 p.2, some (round4 p.2)⟩] }, none⟩
      else market_parser_fallback o.fallback s

/-- Fields independent_researcher_node reads off the decoded response. -/
structure Node3Parsed where
  research_summary : Option String
  sources : List String

/-- Translation of independent_researcher_node (nodes.py). -/
def independent_researcher_node (c : StageCall Node3Parsed)
    (s : KalshiResearchState) : NodeResult :=
  let s := { s with current_step := "independent_researcher" }
  match validate_market_parsed s with
  | .error m => ⟨{ s with errors := s.errors ++ [m] }, none⟩
  | .ok _ =>
      match c with
      | .raise m => ⟨s, some m⟩
      | .parseFail m =>
          ⟨{ s with errors := s.errors ++ ["Failed to parse research: " ++ m] }, none⟩
      | .parsed p =>
          ⟨{ s with research_summary := p.research_summary, sources := p.sources }, none⟩

/-- Fields probability_estimator_node reads off the decoded response. -/
structure Node4Parsed where
  estimated_probabilities : List ProbabilityEstimate
  confidence_level : Option String

/-- Translation of probability_estimator_node (nodes.py). -/
def probability_estimator_node (c : StageCall Node4Parsed)
    (s : KalshiResearchState) : NodeResult :=
  let s := { s with current_step := "probability_estimator" }
  match validate_research_complete s with
  | .error m => ⟨{ s with errors := s.errors ++ [m] }, none⟩
  | .ok _ =>
      match c with
      | .raise m => ⟨s, some m⟩
      | .parseFail m =>
          ⟨{ s with errors := s.errors ++ ["Failed to parse probability estimates: " ++ m] }, none⟩
      | .parsed p =>
          ⟨{ s with estimated_probabilities := p.estimated_probabilities,
                    confidence_level := p.confidence_level }, none⟩

/-- Fields mispricing_analyst_node reads off the decoded response. -/
structure Node5Parsed where
  pricing_comparison : List PricingComparison
  edge_analysis : Option String

/-- Translation of mispricing_analyst_node (nodes.py). -/
def mispricing_analyst_node (c : StageCall Node5Parsed)
    (s : KalshiResearchState) : NodeResult :=
  let s := { s with current_step := "mispricing_analyst" }
  match validate_probabilities_estimated s with
  | .error m => ⟨{ s with errors := s.errors ++ [m] }, none⟩
  | .ok _ =>
      match c with
      | .raise m => ⟨s, some m⟩
      | .parseFail m =>
          ⟨{ s with errors := s.errors ++ ["Failed to parse mispricing analysis: " ++ m] }, none⟩
      | .parsed p =>
          ⟨{ s with pricing_comparison := p.pricing_comparison,
                    edge_analysis := p.edge_analysis }, none⟩

/-- Fields persona_recommender_node reads off the decoded response. -/
structure Node6Parsed where
  persona_recommendations : List PersonaRecommendation

/-- Translation of persona_recommender_node (nodes.py); the personas list
only shapes the prompt text, not the control flow. -/
def persona_recommender_node (c : StageCall Node6Parsed) (_personas : List String)
    (s : KalshiResearchState) : NodeResult :=
  let s := { s with current_step := "persona_recommender" }
  match validate_mispricing_analyzed s with
  | .error m => ⟨{ s with errors := s.errors ++ [m] }, none⟩
  | .ok _ =>
      match c with
      | .raise m => ⟨s, some m⟩
      | .parseFail m =>
          ⟨{ s with errors := s.errors ++ ["Failed to parse persona recommendations: " ++ m] }, none⟩
      | .parsed p =>
          ⟨{ s with persona_recommendations := p.persona_recommendations }, none⟩

/-- Fields scenario_analyst_node reads off the decoded response. -/
structure Node7Parsed where
  scenarios : List Scenario

/-- Translation of scenario_analyst_node (nodes.py): gated by a direct
emptiness check instead of a validator. -/
def scenario_analyst_node (c : StageCall Node7Parsed)
    (s : KalshiResearchState) : NodeResult :=
  let s := { s with current_step := "scenario_analyst" }
  if s.persona_recommendations = [] then
    ⟨{ s with errors := s.errors ++ ["No persona recommendations - cannot proceed to scenarios"] }, none⟩
  else
    match c with
    | .raise m => ⟨s, some m⟩
    | .parseFail m =>
        ⟨{ s with errors := s.errors ++ ["Failed to parse scenario analysis: " ++ m] }, none⟩
    | .parsed p => ⟨{ s with scenarios := p.scenarios }, none⟩

/-- Outcome of the final model call; parseFail keeps the raw response text
because the node inspects it for a markdown heading. -/
inductive Node8Call where
  | raise (msg : String)
  | parseFail (raw : String)
  | parsed (final_output : Option String)

/-- Translation of final_suggester_node (nodes.py): the composite validator
failure is demoted to a Warning-prefixed log entry and synthesis proceeds. -/
def final_suggester_node (c : Node8Call) (personas : List String)
    (s : KalshiResearchState) : NodeResult :=
  let s := { s with current_step := "final_suggester" }
  let s :=
    match validate_ready_for_output s personas with
    | .error m => { s with errors := s.errors ++ ["Warning: " ++ m] }
    | .ok _ => s
  match c with
  | .raise m => ⟨s, some m⟩
  | .parseFail raw =>
      let s :=
        if pyStartswith (pyStrip raw) "#" then { s with final_output := some raw }
        else { s with errors := s.errors ++ ["Failed to generate final report"] }
      ⟨{ s with current_step := "completed" }, none⟩
  | .parsed f => ⟨{ s with final_output := f, current_step := "completed" }, none⟩

/-! ## workflow.py: the orchestrator -/

/-- The default persona list (workflow.py). -/
def DEFAULT_PERSONAS : List String :=
  ["risk_averse", "risk_seeking", "news_driven", "macro_thinker",
   "casual_participant", "data_analyst"]

/-- One oracle value per stage: the behavior of every external call the run
makes. -/
structure Oracles where
  ingest : StageCall Node1Parsed
  parser : Node2Oracle
  research : StageCall Node3Parsed
  estimate : StageCall Node4Parsed
  misprice : StageCall Node5Parsed
  recommend : StageCall Node6Parsed
  scenario : StageCall Node7Parsed
  final : Node8Call

/-- Translation of the loop body of ResearchWorkflow.run (workflow.py lines
96-123): on a clean step, stop after market_ingestor when the dedicated
input-error field is truthy; on an escaped exception, append the formatted
fault message and stop when the failing step is market_ingestor or
market_parser. Log statements carry no state. -/
def runFrom : List (String × (KalshiResearchState → NodeResult)) →
    KalshiResearchState → KalshiResearchState
  | [], s => s
  | (name, f) :: rest, s =>
      let r := f s
      match r.fault with
      | none =>
          if truthyOpt r.state.input_validation_error && name == "market_ingestor" then
            r.state
          else runFrom rest r.state
      | some m =>
          let s2 := { r.state with
            errors := r.state.errors ++ [(("Step " ++ name) ++ " failed: ") ++ m] }
          if name == "market_ingestor" || name == "market_parser" then s2
          else runFrom rest s2

/-- The ordered step list of ResearchWorkflow (workflow.py lines 64-73). -/
def researchSteps (o : Oracles) (personas : List String) :
    List (String × (KalshiResearchState → NodeResult)) :=
  [("market_ingestor", market_ingestor_node o.ingest),
   ("market_parser", market_parser_node o.parser),
   ("independent_researcher", independent_researcher_node o.research),
   ("probability_estimator", probability_estimator_node o.estimate),
   ("mispricing_analyst", mispricing_analyst_node o.misprice),
   ("persona_recommender", persona_recommender_node o.recommend personas),
   ("scenario_analyst", scenario_analyst_node o.scenario),
   ("final_suggester", final_suggester_node o.final personas)]

/-- Translation of ResearchWorkflow.run. -/
def runResearch (o : Oracles) (personas : List String) (input : String) :
    KalshiResearchState :=
  runFrom (researchSteps o personas) (initState input)

/-! ## Helper lemmas -/

lemma tickerChar_toUpper {c : Char} (h : isUpperTickerChar c = true) : c.toUpper = c := by
  unfold Char.toUpper
  simp only [isUpperTickerChar, Char.isUpper, Char.isDigit, Bool.or_eq_true,
    Bool.and_eq_true, decide_eq_true_eq, beq_iff_eq] at h
  have hlt : Char.toNat c < 97 := by
    rcases h with (⟨h1, h2⟩ | ⟨h1, h2⟩) | h1
    · have := UInt32.toNat_le_of_le (by decide : (90 : Nat) < UInt32.size) h2
      simpa [Char.toNat] using by omega
    · have := UInt32.toNat_le_of_le (by decide : (57 : Nat) < UInt32.size) h2
      simpa [Char.toNat] using by omega
    · subst h1; decide
  rw [if_neg]
  omega

lemma tickerChar_not_ws {c : Char} (h : isUpperTickerChar c = true) :
    c.isWhitespace = false := by
  cases hw : c.isWhitespace with
  | false => rfl
  | true =>
      exfalso
      simp only [Char.isWhitespace, Bool.or_eq_true, decide_eq_true_eq] at hw
      rcases hw with ((hw | hw) | hw) | hw <;> subst hw <;> simp [isUpperTickerChar] at h

lemma tickerChar_ne_h {c : Char} (h : isUpperTickerChar c = true) : c ≠ 'h' := by
  intro he; subst he; simp [isUpperTickerChar] at h

lemma dropWhile_all_false {p : Char → Bool} {l : List Char}
    (h : ∀ c ∈ l, p c = false) : l.dropWhile p = l := by
  cases l with
  | nil => rfl
  | cons a t => simp [List.dropWhile_cons, h a (by simp)]

lemma pyStrip_of_no_ws {s : String}
    (h : ∀ c ∈ s.toList, c.isWhitespace = false) : pyStrip s = s := by
  unfold pyStrip
  rw [dropWhile_all_false h,
    dropWhile_all_false (by intro c hc; exact h c (by simpa using hc)),
    List.reverse_reverse]
  rfl

lemma map_toUpper_fixed : ∀ (l : List Char), (∀ c ∈ l, c.toUpper = c) →
    l.map Char.toUpper = l := by
  intro l h
  induction l with
  | nil => rfl
  | cons a t ih => simp [h a (by simp), ih (fun c hc => h c (by simp [hc]))]

lemma pyUpper_of_fixed {s : String}
    (h : ∀ c ∈ s.toList, c.toUpper = c) : pyUpper s = s := by
  unfold pyUpper
  rw [map_toUpper_fixed _ h]
  rfl

lemma pyStartswith_http_false {s : String}
    (hne : s.toList ≠ []) (h : ∀ c ∈ s.toList, isUpperTickerChar c = true) :
    pyStartswith s "http" = false := by
  unfold pyStartswith
  cases hl : s.toList with
  | nil => exact absurd hl hne
  | cons a t =>
      have ha : a ≠ 'h' := tickerChar_ne_h (h a (by rw [hl]; simp))
      have h4 : ("http".length) = 4 := rfl
      simp [hl, h4, List.take_succ_cons, ha]

/-- On a nonempty all-ticker-character input of length at most 50, the
direct-identifier branch of extract_ticker_from_input fires and returns the
input unchanged. -/
lemma extract_valid_ident {s : String} (hne : s.toList ≠ [])
    (hall : s.toList.all isUpperTickerChar = true) (hlen : s.length ≤ 50) :
    extract_ticker_from_input s = some s := by
  have hall' : ∀ c ∈ s.toList, isUpperTickerChar c = true := List.all_eq_true.mp hall
  have hstrip : pyStrip s = s :=
    pyStrip_of_no_ws (fun c hc => tickerChar_not_ws (hall' c hc))
  have hupper : pyUpper s = s :=
    pyUpper_of_fixed (fun c hc => tickerChar_toUpper (hall' c hc))
  have hstart : pyStartswith s "http" = false := pyStartswith_http_false hne hall'
  simp only [extract_ticker_from_input]
  rw [hstrip, hstart]
  rw [if_neg (by simp)]
  rw [hupper]
  rw [if_pos ⟨⟨hne, hall⟩, hlen⟩]

/-- Modelled from the spec narrative, section 4.2: the probability derivation
policy written step by step as the spec words it — (a) implied-yes from the
yes bid/ask midpoint else last trade, (b) implied-no mirrored from no bid/ask
else one minus last trade, (c) the zero override, then rounding both to 4
decimal places. Used to compare the market-parser derivation against the
spec. -/
def specImplied (r : KalshiMarketData) : ℚ × ℚ :=
  let impliedYes := if r.yes_ask ≠ 0 then (r.yes_bid + r.yes_ask) / 2 else r.last_price
  let impliedNo := if r.no_ask ≠ 0 then (r.no_bid + r.no_ask) / 2 else 1 - r.last_price
  if impliedYes = 0 ∧ r.last_price ≠ 0 then
    (round4 r.last_price, round4 (1 - r.last_price))
  else (round4 impliedYes, round4 impliedNo)

/-- On the fetch path (ingestion validated, a truthy ticker, fetch_market
returning a record), market_parser_node writes exactly the two rounded
implied-probability entries. -/
lemma market_parser_node_fetch (o : Node2Oracle) (s : KalshiResearchState)
    (r : KalshiMarketData) (hv : validate_market_ingested s = .ok ())
    (ht : truthyOpt (node2Ticker s) = true)
    (hf : o.fetch ((node2Ticker s).getD "") = .ok r) :
    (market_parser_node o s).state.market_odds =
      [⟨"Yes", round4 (impliedMid r).1, some (round4 (impliedMid r).1)⟩,
       ⟨"No", round4 (impliedMid r).2, some (round4 (impliedMid r).2)⟩] := by
  have hv2 : validate_market_ingested { s with current_step := "market_parser" } = .ok () := hv
  have ht2 : node2Ticker { s with current_step := "market_parser" } = node2Ticker s := rfl
  simp only [market_parser_node, hv2, ht2, ht, if_true]
  rw [show o.fetch ((node2Ticker s).getD "") = .ok r from hf]

/-- The market record of the end-to-end scenario: yes-bid 0.60, yes-ask 0.64,
no-bid 0.36, no-ask 0.40. -/
def exampleRecord : KalshiMarketData :=
  ⟨"KXBTC-24DEC31-100K", "Bitcoin above 100K", "rules text", none,
   "2024-12-31T23:59:59Z", "open", 0.60, 0.64, 0.36, 0.40, 0, 0⟩

/-- A state as left by a successful ingestion stage for the scenario input. -/
def exampleIngested : KalshiResearchState :=
  { initState "KXBTC-24DEC31-100K" with market_title := some "Bitcoin above 100K" }

/-- A gateway oracle returning the scenario record for every ticker. -/
def exampleFetchOracle : Node2Oracle :=
  ⟨fun _ => .ok exampleRecord, .parseFail "unused"⟩

/-- A market record with every price field zero. -/
def zeroRecord : KalshiMarketData :=
  ⟨"KXBTC-24DEC31-100K", "Bitcoin above 100K", "rules text", none,
   "2024-12-31T23:59:59Z", "open", 0, 0, 0, 0, 0, 0⟩

/-- A gateway oracle returning the all-zero record for every ticker. -/
def zeroFetchOracle : Node2Oracle :=
  ⟨fun _ => .ok zeroRecord, .parseFail "unused"⟩

/-! ## Claim theorems -/

/-- C8: for every input string that is a syntactically valid identifier
(nonempty, every character in the class [A-Z0-9-], at most 50 characters),
ticker extraction returns the input itself, and hence is idempotent:
extract (extract x) = extract x. -/
theorem C8_extract_idempotent (s : String) (hne : s.toList ≠ [])
    (hall : s.toList.all isUpperTickerChar = true) (hlen : s.length ≤ 50) :
    extract_ticker_from_input s = some s ∧
    (extract_ticker_from_input s).bind extract_ticker_from_input =
      extract_ticker_from_input s := by
  have h := extract_valid_ident hne hall hlen
  refine ⟨h, ?_⟩
  rw [h]
  simpa using h

/-- Witness for C8 at the concrete identifier KXBTC-24DEC31-100K. -/
theorem C8_extract_idempotent_witness :
    ("KXBTC-24DEC31-100K".toList ≠ [] ∧
     "KXBTC-24DEC31-100K".toList.all isUpperTickerChar = true ∧
     "KXBTC-24DEC31-100K".length ≤ 50) ∧
    extract_ticker_from_input "KXBTC-24DEC31-100K" = some "KXBTC-24DEC31-100K" ∧
    (extract_ticker_from_input "KXBTC-24DEC31-100K").bind extract_ticker_from_input =
      extract_ticker_from_input "KXBTC-24DEC31-100K" :=
  ⟨⟨by decide, by decide, by decide⟩,
   C8_extract_idempotent "KXBTC-24DEC31-100K" (by decide) (by decide) (by decide)⟩

/-- C10: the common-word exclusion list plays no role outside the token-scan
rule. Every input made only of uppercase letters, digits and hyphens of
length at most 50 — the excluded words such as MARKET or THE included — is
returned uppercased (hence unchanged) by the direct-identifier rule, and a
URL whose last path segment is an excluded word is still extracted by the
URL rule. -/
theorem C10_exclusion_scan_only (s : String) (hne : s.toList ≠ [])
    (hall : s.toList.all isUpperTickerChar = true) (hlen : s.length ≤ 50) :
    (extract_ticker_from_input s = some (pyUpper s) ∧ pyUpper s = s) ∧
    extract_ticker_from_input "https://kalshi.com/markets/market" = some "MARKET" := by
  have hupper : pyUpper s = s :=
    pyUpper_of_fixed (fun c hc => tickerChar_toUpper (List.all_eq_true.mp hall c hc))
  refine ⟨⟨?_, hupper⟩, by decide⟩
  rw [hupper]
  exact extract_valid_ident hne hall hlen

/-- Witness for C10 at the excluded word MARKET. -/
theorem C10_exclusion_scan_only_witness :
    ("MARKET".toList ≠ [] ∧ "MARKET".toList.all isUpperTickerChar = true ∧
     "MARKET".length ≤ 50) ∧
    (extract_ticker_from_input "MARKET" = some (pyUpper "MARKET") ∧
     pyUpper "MARKET" = "MARKET") ∧
    extract_ticker_from_input "https://kalshi.com/markets/market" = some "MARKET" :=
  ⟨⟨by decide, by decide, by decide⟩,
   C10_exclusion_scan_only "MARKET" (by decide) (by decide) (by decide)⟩

/-- C1: the market parser derives implied probabilities exactly per the spec
policy — the source computation (midpoints with last-trade fallbacks, the
zero override, rounding to 4 places) coincides with the spec-worded policy on
every record, the fetch path writes exactly those two entries into
market_odds, and on the 0.60/0.64/0.36/0.40 record the list carries implied
probability 0.62 for Yes and 0.38 for No. -/
theorem C1_implied_probability_policy :
    (∀ r : KalshiMarketData,
      (round4 (impliedMid r).1, round4 (impliedMid r).2) = specImplied r) ∧
    (∀ (o : Node2Oracle) (s : KalshiResearchState) (r : KalshiMarketData),
      validate_market_ingested s = .ok () →
      truthyOpt (node2Ticker s) = true →
      o.fetch ((node2Ticker s).getD "") = .ok r →
      (market_parser_node o s).state.market_odds =
        [⟨"Yes", (specImplied r).1, some (specImplied r).1⟩,
         ⟨"No", (specImplied r).2, some (specImplied r).2⟩]) ∧
    (market_parser_node exampleFetchOracle exampleIngested).state.market_odds =
      [⟨"Yes", 0.62, some 0.62⟩, ⟨"No", 0.38, some 0.38⟩] := by
  have hspec : ∀ r : KalshiMarketData,
      (round4 (impliedMid r).1, round4 (impliedMid r).2) = specImplied r := by
    intro r
    simp only [impliedMid, specImplied]
    split <;> split <;> simp
  have hfetch : ∀ (o : Node2Oracle) (s : KalshiResearchState) (r : KalshiMarketData),
      validate_market_ingested s = .ok () →
      truthyOpt (node2Ticker s) = true →
      o.fetch ((node2Ticker s).getD "") = .ok r →
      (market_parser_node o s).state.market_odds =
        [⟨"Yes", (specImplied r).1, some (specImplied r).1⟩,
         ⟨"No", (specImplied r).2, some (specImplied r).2⟩] := by
    intro o s r hv ht hf
    rw [market_parser_node_fetch o s r hv ht hf, ← hspec r]
  refine ⟨hspec, hfetch, ?_⟩
  rw [market_parser_node_fetch exampleFetchOracle exampleIngested exampleRecord rfl
    (by decide) rfl]
  have hmid : impliedMid exampleRecord = (0.62, 0.38) := by
    simp only [impliedMid, exampleRecord]
    norm_num
  rw [hmid]
  have h62 : round4 0.62 = 0.62 := by
    unfold round4
    rw [show (0.62 : ℚ) * 10000 = ((6200 : ℤ) : ℚ) by norm_num, round_intCast]
    norm_num
  have h38 : round4 0.38 = 0.38 := by
    unfold round4
    rw [show (0.38 : ℚ) * 10000 = ((3800 : ℤ) : ℚ) by norm_num, round_intCast]
    norm_num
  rw [show ((0.62 : ℚ), (0.38 : ℚ)).1 = 0.62 from rfl,
    show ((0.62 : ℚ), (0.38 : ℚ)).2 = 0.38 from rfl, h62, h38]

/-- Witness for C1: the fetch-path conjunct applied at the concrete scenario
oracle, state and record. -/
theorem C1_implied_probability_policy_witness :
    (market_parser_node exampleFetchOracle exampleIngested).state.market_odds =
      [⟨"Yes", (specImplied exampleRecord).1, some (specImplied exampleRecord).1⟩,
       ⟨"No", (specImplied exampleRecord).2, some (specImplied exampleRecord).2⟩] :=
  C1_implied_probability_policy.2.1 exampleFetchOracle exampleIngested exampleRecord
    rfl (by decide) rfl

/-- Counterexample to C3: on the all-zero record the market parser produces
implied probability 0 for Yes but 1 for No — not 0 for both as claimed. -/
theorem C3_all_zero_counterexample :
    (market_parser_node zeroFetchOracle exampleIngested).state.market_odds.map
        (fun od => (od.outcome, od.implied_probability)) = [("Yes", 0), ("No", 1)] ∧
    ¬ (market_parser_node zeroFetchOracle exampleIngested).state.market_odds.map
        (fun od => (od.outcome, od.implied_probability)) = [("Yes", 0), ("No", 0)] := by
  have h := market_parser_node_fetch zeroFetchOracle exampleIngested zeroRecord rfl
    (by decide) rfl
  have hmid : impliedMid zeroRecord = (0, 1) := by
    simp only [impliedMid, zeroRecord]
    norm_num
  have h0 : round4 0 = 0 := by
    unfold round4
    rw [show (0 : ℚ) * 10000 = ((0 : ℤ) : ℚ) by norm_num, round_intCast]
    norm_num
  have h1 : round4 1 = 1 := by
    unfold round4
    rw [show (1 : ℚ) * 10000 = ((10000 : ℤ) : ℚ) by norm_num, round_intCast]
    norm_num
  rw [h, hmid] at *
  constructor
  · simp only [List.map_cons, List.map_nil]
    rw [h0, h1]
  · intro hc
    simp only [List.map_cons, List.map_nil, h0, h1, List.cons.injEq,
      Prod.mk.injEq] at hc
    exact absurd hc.2.1.2 (by norm_num)

/-- C3 amended: for a fetched record in which every price field is zero, the
market parser produces implied probability 0 for Yes and 1 for No (the no-ask
fallback is one minus the last-trade price, and the zero override does not
fire because the last-trade price is zero). -/
theorem C3_all_zero_amended (o : Node2Oracle) (s : KalshiResearchState)
    (r : KalshiMarketData) (hv : validate_market_ingested s = .ok ())
    (ht : truthyOpt (node2Ticker s) = true)
    (hf : o.fetch ((node2Ticker s).getD "") = .ok r)
    (hz : r.yes_bid = 0 ∧ r.yes_ask = 0 ∧ r.no_bid = 0 ∧ r.no_ask = 0 ∧ r.last_price = 0) :
    (market_parser_node o s).state.market_odds.map
      (fun od => (od.outcome, od.implied_probability)) = [("Yes", 0), ("No", 1)] := by
  obtain ⟨hz1, hz2, hz3, hz4, hz5⟩ := hz
  have hmid : impliedMid r = (0, 1) := by
    simp only [impliedMid, hz1, hz2, hz3, hz4, hz5]
    norm_num
  have h0 : round4 0 = 0 := by
    unfold round4
    rw [show (0 : ℚ) * 10000 = ((0 : ℤ) : ℚ) by norm_num, round_intCast]
    norm_num
  have h1 : round4 1 = 1 := by
    unfold round4
    rw [show (1 : ℚ) * 10000 = ((10000 : ℤ) : ℚ) by norm_num, round_intCast]
    norm_num
  rw [market_parser_node_fetch o s r hv ht hf, hmid]
  simp only [List.map_cons, List.map_nil]
  rw [h0, h1]

/-- Witness for the amended C3 at the concrete all-zero record. -/
theorem C3_all_zero_amended_witness :
    (market_parser_node zeroFetchOracle exampleIngested).state.market_odds.map
      (fun od => (od.outcome, od.implied_probability)) = [("Yes", 0), ("No", 1)] :=
  C3_all_zero_amended zeroFetchOracle exampleIngested zeroRecord rfl (by decide) rfl
    ⟨rfl, rfl, rfl, rfl, rfl⟩

/-- An oracle assignment under which stage 1 succeeds but extracts no market
title, every later model call is left unreachable except the final stage,
which parses to a report. -/
def stage2FailOracles : Oracles :=
  { ingest := .parsed ⟨some "valid", none, none, none⟩,
    parser := ⟨fun _ => FetchResult.raise "unused", .raise "unused"⟩,
    research := .raise "unused", estimate := .raise "unused",
    misprice := .raise "unused", recommend := .raise "unused",
    scenario := .raise "unused", final := .parsed (some "# Report") }

/-- Counterexample to C2: in a run where the stage-2 precondition fails (no
market title extracted), the orchestrator does not terminate after stage 2 —
the run continues through stage 8, finishing in step completed with a final
output, while the stage-2 precondition message merely sits in the error log.
Under the claim the returned state would still be at step market_parser with
no final output. -/
theorem C2_stage2_abort_counterexample :
    "Market title not extracted. Cannot proceed without identified market." ∈
      (runResearch stage2FailOracles DEFAULT_PERSONAS "KXBTC-24DEC31-100K").errors ∧
    (runResearch stage2FailOracles DEFAULT_PERSONAS "KXBTC-24DEC31-100K").current_step =
      "completed" ∧
    (runResearch stage2FailOracles DEFAULT_PERSONAS "KXBTC-24DEC31-100K").final_output =
      some "# Report" := by
  refine ⟨by decide, by decide, by decide⟩

/-- C2 amended: a stage-2 precondition failure is recorded in the error log,
the stage produces no output and raises no fault, and the run continues with
the next stage; only stage 1 aborts the run on its (input-validation)
precondition failure, while stages 1 and 2 abort only on escaped exceptions. -/
theorem C2_stage2_precondition_continues (o : Node2Oracle) (s : KalshiResearchState)
    (m : String) (hv : validate_market_ingested s = .error m) :
    market_parser_node o s =
      ⟨{ s with current_step := "market_parser", errors := s.errors ++ [m] }, none⟩ ∧
    ∀ rest, runFrom (("market_parser", market_parser_node o) :: rest) s =
      runFrom rest { s with current_step := "market_parser", errors := s.errors ++ [m] } := by
  have hv2 : validate_market_ingested { s with current_step := "market_parser" } = .error m := hv
  have h1 : market_parser_node o s =
      ⟨{ s with current_step := "market_parser", errors := s.errors ++ [m] }, none⟩ := by
    simp only [market_parser_node, hv2]
  refine ⟨h1, fun rest => ?_⟩
  rw [runFrom, h1]
  simp

/-- Witness for the amended C2 at a concrete state missing the market title. -/
theorem C2_stage2_precondition_continues_witness :
    market_parser_node zeroFetchOracle (initState "x") =
      ⟨{ initState "x" with
           current_step := "market_parser",
           errors := ["Market title not extracted. Cannot proceed without identified market."] },
       none⟩ ∧
    runFrom [("market_parser", market_parser_node zeroFetchOracle)] (initState "x") =
      { initState "x" with
          current_step := "market_parser",
          errors := ["Market title not extracted. Cannot proceed without identified market."] } := by
  have h := C2_stage2_precondition_continues zeroFetchOracle (initState "x")
    "Market title not extracted. Cannot proceed without identified market." rfl
  exact ⟨h.1, by rw [h.2 []]; rfl⟩

/-- Counterexample to C4: when stage-1 input validation fails on the empty
input, the failure message lands in the dedicated input-error field AND is
appended to the generic error log — the error log is not left unchanged. -/
theorem C4_error_log_untouched_counterexample :
    (initState "").errors = [] ∧
    (market_ingestor_node (.raise "unused") (initState "")).state.input_validation_error =
      some "No market input provided. Please provide a Kalshi market URL, ID, or description." ∧
    (market_ingestor_node (.raise "unused") (initState "")).state.errors =
      ["No market input provided. Please provide a Kalshi market URL, ID, or description."] :=
  ⟨rfl, rfl, rfl⟩

/-- C4 amended: when stage-1 input validation fails, the message is written
to the dedicated input-error field and also appended to the generic error
log, and no model call is made — the result does not depend on the model
oracle. -/
theorem C4_input_error_dual_write (c c2 : StageCall Node1Parsed)
    (s : KalshiResearchState) (m : String) (hv : validate_user_input s = .error m) :
    market_ingestor_node c s =
      ⟨{ s with
           current_step := "market_ingestor",
           input_validation_error := some m,
           errors := s.errors ++ [m] }, none⟩ ∧
    market_ingestor_node c s = market_ingestor_node c2 s := by
  have hv2 : validate_user_input { s with current_step := "market_ingestor" } = .error m := hv
  constructor <;> simp only [market_ingestor_node, hv2]

/-- Witness for the amended C4 at the empty input. -/
theorem C4_input_error_dual_write_witness :
    market_ingestor_node (.raise "a") (initState "") =
      ⟨{ initState "" with
           current_step := "market_ingestor",
           input_validation_error := some "No market input provided. Please provide a Kalshi market URL, ID, or description.",
           errors := ["No market input provided. Please provide a Kalshi market URL, ID, or description."] },
       none⟩ ∧
    market_ingestor_node (.raise "a") (initState "") =
      market_ingestor_node (.parseFail "b") (initState "") :=
  C4_input_error_dual_write (.raise "a") (.parseFail "b") (initState "")
    "No market input provided. Please provide a Kalshi market URL, ID, or description." rfl

/-- Stage 1 leaves every field owned by a later stage untouched. -/
lemma node1_preserves (c : StageCall Node1Parsed) (s : KalshiResearchState) :
    (market_ingestor_node c s).state.resolution_criteria = s.resolution_criteria ∧
    (market_ingestor_node c s).state.expiration_date = s.expiration_date ∧
    (market_ingestor_node c s).state.market_odds = s.market_odds ∧
    (market_ingestor_node c s).state.research_summary = s.research_summary ∧
    (market_ingestor_node c s).state.sources = s.sources ∧
    (market_ingestor_node c s).state.estimated_probabilities = s.estimated_probabilities ∧
    (market_ingestor_node c s).state.confidence_level = s.confidence_level ∧
    (market_ingestor_node c s).state.pricing_comparison = s.pricing_comparison ∧
    (market_ingestor_node c s).state.edge_analysis = s.edge_analysis ∧
    (market_ingestor_node c s).state.persona_recommendations = s.persona_recommendations ∧
    (market_ingestor_node c s).state.scenarios = s.scenarios ∧
    (market_ingestor_node c s).state.final_output = s.final_output := by
  cases c <;> unfold market_ingestor_node <;> dsimp only <;> (repeat' split) <;>
    exact ⟨rfl, rfl, rfl, rfl, rfl, rfl, rfl, rfl, rfl, rfl, rfl, rfl⟩

/-- C5: whenever stage 1 completes without a fault and leaves the dedicated
input-error field truthy, the orchestrator returns that stage-1 state at
once, and every field owned by stages 2 through 8 is still at its dataclass
default. -/
theorem C5_input_error_abort (o : Oracles) (personas : List String) (input : String)
    (s1 : KalshiResearchState)
    (h1 : market_ingestor_node o.ingest (initState input) = ⟨s1, none⟩)
    (ht : truthyOpt s1.input_validation_error = true) :
    runResearch o personas input = s1 ∧
    s1.resolution_criteria = none ∧ s1.expiration_date = none ∧ s1.market_odds = [] ∧
    s1.research_summary = none ∧ s1.sources = [] ∧ s1.estimated_probabilities = [] ∧
    s1.confidence_level = none ∧ s1.pricing_comparison = [] ∧ s1.edge_analysis = none ∧
    s1.persona_recommendations = [] ∧ s1.scenarios = [] ∧ s1.final_output = none := by
  have hs : (market_ingestor_node o.ingest (initState input)).state = s1 := by rw [h1]
  have hp := node1_preserves o.ingest (initState input)
  rw [hs] at hp
  refine ⟨?_, hp.1, hp.2.1, hp.2.2.1, hp.2.2.2.1, hp.2.2.2.2.1, hp.2.2.2.2.2.1,
    hp.2.2.2.2.2.2.1, hp.2.2.2.2.2.2.2.1, hp.2.2.2.2.2.2.2.2.1,
    hp.2.2.2.2.2.2.2.2.2.1, hp.2.2.2.2.2.2.2.2.2.2.1, hp.2.2.2.2.2.2.2.2.2.2.2⟩
  unfold runResearch researchSteps
  rw [runFrom, h1]
  simp [ht]

/-- Oracle assignment whose stage-1 model response is rejected as invalid. -/
def inputErrorOracles : Oracles :=
  { ingest := .parsed ⟨some "invalid", none, none, some "bad input"⟩,
    parser := ⟨fun _ => FetchResult.raise "unused", .raise "unused"⟩,
    research := .raise "unused", estimate := .raise "unused",
    misprice := .raise "unused", recommend := .raise "unused",
    scenario := .raise "unused", final := .raise "unused" }

/-- The state stage 1 produces under inputErrorOracles on input xyz. -/
def inputErrorState : KalshiResearchState :=
  { user_market_input := "xyz", input_validation_error := some "bad input",
    current_step := "market_ingestor" }

/-- Witness for C5 at a concrete run whose stage-1 response is invalid. -/
theorem C5_input_error_abort_witness :
    runResearch inputErrorOracles DEFAULT_PERSONAS "xyz" = inputErrorState ∧
    inputErrorState.resolution_criteria = none ∧ inputErrorState.expiration_date = none ∧
    inputErrorState.market_odds = [] ∧ inputErrorState.research_summary = none ∧
    inputErrorState.sources = [] ∧ inputErrorState.estimated_probabilities = [] ∧
    inputErrorState.confidence_level = none ∧ inputErrorState.pricing_comparison = [] ∧
    inputErrorState.edge_analysis = none ∧ inputErrorState.persona_recommendations = [] ∧
    inputErrorState.scenarios = [] ∧ inputErrorState.final_output = none :=
  C5_input_error_abort inputErrorOracles DEFAULT_PERSONAS "xyz" inputErrorState rfl rfl

/-- A state carrying one probability estimate q and a high confidence label,
as validator 5 sees it. -/
def estStateC6 (q : ℚ) : KalshiResearchState :=
  { user_market_input := "x",
    estimated_probabilities := [⟨"Yes", q, "reasoning"⟩],
    confidence_level := some "high" }

/-- An Except value is an error exactly when it is not ok. -/
lemma exists_error_iff_ne (e : Except String Unit) :
    (∃ m, e = .error m) ↔ e ≠ .ok () := by
  cases e with
  | error m => simp
  | ok a => cases a; simp

/-- Validator 5 passes exactly when estimates are nonempty, their sum lies in
[0.95, 1.05], and the confidence label is truthy. -/
lemma validate_probabilities_ok_iff (s : KalshiResearchState) :
    validate_probabilities_estimated s = .ok () ↔
      (s.estimated_probabilities ≠ [] ∧
       ((95 : ℚ)/100 ≤ estSum s ∧ estSum s ≤ (105 : ℚ)/100) ∧
       truthyOpt s.confidence_level = true) := by
  unfold validate_probabilities_estimated
  split
  · rename_i h
    simp [h]
  · rename_i h
    split
    · rename_i h2
      simp only [decide_eq_true_eq, Bool.not_eq_true', decide_eq_false_iff_not] at h2
      simp [h, h2]
    · rename_i h2
      simp only [Bool.not_eq_true', decide_eq_false_iff_not, not_not] at h2
      split
      · rename_i h3
        simp only [Bool.not_eq_true'] at h3
        simp [h, h2, h3]
      · rename_i h3
        simp only [Bool.not_eq_true', Bool.not_eq_false] at h3
        simp [h, h2, h3]

/-- C6: validator 5 raises a failure (with a message) if and only if the
estimate list is empty, or the estimated probabilities sum to a value outside
[0.95, 1.05], or the confidence label is absent; a sum of 0.94 fails, 0.96
passes, exactly 1.00 passes, and 1.06 fails. -/
theorem C6_validator5_sum_gate :
    (∀ s : KalshiResearchState,
      (∃ m, validate_probabilities_estimated s = .error m) ↔
        (s.estimated_probabilities = [] ∨ estSum s < (95 : ℚ)/100 ∨
         (105 : ℚ)/100 < estSum s ∨ truthyOpt s.confidence_level = false)) ∧
    (∃ m, validate_probabilities_estimated (estStateC6 (94/100)) = .error m) ∧
    validate_probabilities_estimated (estStateC6 (96/100)) = .ok () ∧
    validate_probabilities_estimated (estStateC6 1) = .ok () ∧
    (∃ m, validate_probabilities_estimated (estStateC6 (106/100)) = .error m) := by
  refine ⟨?_, ?_, ?_, ?_, ?_⟩
  · intro s
    rw [exists_error_iff_ne, ne_eq, (validate_probabilities_ok_iff s).not]
    simp only [not_and_or, not_le, not_ne_iff, Bool.not_eq_true, or_assoc]
  · rw [exists_error_iff_ne]
    unfold validate_probabilities_estimated estStateC6
    norm_num [estSum]
    intro hc
    exact Except.noConfusion hc
  · unfold validate_probabilities_estimated estStateC6
    norm_num [estSum, truthyOpt]
    simp
  · unfold validate_probabilities_estimated estStateC6
    norm_num [estSum, truthyOpt]
    simp
  · rw [exists_error_iff_ne]
    unfold validate_probabilities_estimated estStateC6
    norm_num [estSum]
    intro hc
    exact Except.noConfusion hc

/-- A state in which stage 3 can run: resolution criteria and market odds
present. -/
def researchReadyState : KalshiResearchState :=
  { user_market_input := "x", resolution_criteria := some "rules",
    market_odds := [⟨"Yes", 1, none⟩] }

/-- C7: JSON extraction tries, in order, the contents of a fenced json block,
then of any fenced block, then the whole text through the JSON parser, then
the brace span of the text (first opening brace to last closing brace), and
otherwise raises a descriptive error; and when extraction fails, the calling
stage (stage 3 here) appends a descriptive error to the log and leaves its
output fields unset. -/
theorem C7_json_extraction :
    (∀ (J : Type) (loads : String → Except String J) (r : String),
      parse_json_response loads r =
        if containsSub r "```json" = true then
          jsonAttempt loads
            (pyStrip (pySlice r (pyFind r "```json" + 7) (pyFindFrom r "```" (pyFind r "```json" + 7))))
        else if containsSub r "```" = true then
          jsonAttempt loads
            (pyStrip (pySlice r (pyFind r "```" + 3) (pyFindFrom r "```" (pyFind r "```" + 3))))
        else
          match loads r with
          | .ok j => .ok j
          | .error _ =>
              if pyFind r "\x7b" ≠ -1 ∧ pyRfind r "\x7d" + 1 ≠ 0 then
                loads (pySlice r (pyFind r "\x7b") (pyRfind r "\x7d" + 1))
              else
                .error (("Could not parse JSON from response: " ++
                  String.mk (r.toList.take 200)) ++ "...")) ∧
    (∀ (m : String) (s : KalshiResearchState), validate_market_parsed s = .ok () →
      independent_researcher_node (.parseFail m) s =
        ⟨{ s with
             current_step := "independent_researcher",
             errors := s.errors ++ ["Failed to parse research: " ++ m] }, none⟩) := by
  constructor
  · intro J loads r
    by_cases h1 : containsSub r "```json" = true
    · rw [if_pos h1]
      unfold parse_json_response stripFences
      rw [if_pos h1]
    · rw [if_neg h1]
      by_cases h2 : containsSub r "```" = true
      · rw [if_pos h2]
        unfold parse_json_response stripFences
        rw [if_neg h1, if_pos h2]
      · rw [if_neg h2]
        unfold parse_json_response stripFences jsonAttempt
        rw [if_neg h1, if_neg h2]
  · intro m s hv
    have hv2 : validate_market_parsed { s with current_step := "independent_researcher" } =
        .ok () := hv
    simp only [independent_researcher_node, hv2]

/-- Witness for C7: the brace-span fallback on a concrete unfenced text, and
the stage-3 parse-failure path on a concrete ready state. -/
theorem C7_json_extraction_witness :
    parse_json_response (fun _ => (.error "nope" : Except String Unit)) "x \x7by\x7d" =
      .error "nope" ∧
    independent_researcher_node (.parseFail "boom") researchReadyState =
      ⟨{ researchReadyState with
           current_step := "independent_researcher",
           errors := ["Failed to parse research: boom"] }, none⟩ := by
  constructor
  · rw [C7_json_extraction.1 Unit (fun _ => .error "nope") "x \x7by\x7d"]
    rfl
  · have h := C7_json_extraction.2 "boom" researchReadyState rfl
    rw [h]
    rfl

/-- A node function only ever appends to the error log (it never drops or
rewrites recorded errors), in both its clean and its faulting outcome. -/
def ErrAppendOnly (f : KalshiResearchState → NodeResult) : Prop :=
  ∀ s, ∃ tail, (f s).state.errors = s.errors ++ tail

/-- The orchestrator loop preserves every recorded error: over append-only
steps, the final error log extends the initial one. -/
lemma runFrom_errors (steps : List (String × (KalshiResearchState → NodeResult)))
    (hall : ∀ p ∈ steps, ErrAppendOnly p.2) :
    ∀ s, ∃ tail, (runFrom steps s).errors = s.errors ++ tail := by
  induction steps with
  | nil => exact fun s => ⟨[], by simp [runFrom]⟩
  | cons p rest ih =>
      intro s
      obtain ⟨name, f⟩ := p
      have hf : ErrAppendOnly f := hall (name, f) (List.mem_cons_self _ _)
      have hrest : ∀ q ∈ rest, ErrAppendOnly q.2 := fun q hq =>
        hall q (List.mem_cons_of_mem _ hq)
      rw [runFrom]
      cases hfault : (f s).fault with
      | none =>
          simp only [hfault]
          split
          · exact hf s
          · obtain ⟨t, ht⟩ := hf s
            obtain ⟨t2, ht2⟩ := ih hrest (f s).state
            exact ⟨t ++ t2, by rw [ht2, ht, List.append_assoc]⟩
      | some m =>
          simp only [hfault]
          split
          · obtain ⟨t, ht⟩ := hf s
            exact ⟨t ++ [("Step " ++ name) ++ " failed: " ++ m],
              by rw [ht, List.append_assoc]⟩
          · obtain ⟨t, ht⟩ := hf s
            obtain ⟨t2, ht2⟩ := ih hrest _
            refine ⟨(t ++ [("Step " ++ name) ++ " failed: " ++ m]) ++ t2, ?_⟩
            rw [ht2]
            simp only [ht, List.append_assoc]

lemma node1_err (c : StageCall Node1Parsed) : ErrAppendOnly (market_ingestor_node c) := by
  intro s
  cases c <;> unfold market_ingestor_node <;> dsimp only <;> (repeat' split) <;>
    first
      | exact ⟨_, rfl⟩
      | exact ⟨[], (List.append_nil _).symm⟩

lemma node2_err (o : Node2Oracle) : ErrAppendOnly (market_parser_node o) := by
  intro s
  unfold market_parser_node market_parser_fallback
  dsimp only
  (repeat' split) <;>
    first
      | exact ⟨_, rfl⟩
      | exact ⟨[], (List.append_nil _).symm⟩
      | exact ⟨_, (List.append_assoc _ _ _)⟩

lemma node3_err (c : StageCall Node3Parsed) :
    ErrAppendOnly (independent_researcher_node c) := by
  intro s
  cases c <;> unfold independent_researcher_node <;> dsimp only <;> (repeat' split) <;>
    first
      | exact ⟨_, rfl⟩
      | exact ⟨[], (List.append_nil _).symm⟩

lemma node4_err (c : StageCall Node4Parsed) :
    ErrAppendOnly (probability_estimator_node c) := by
  intro s
  cases c <;> unfold probability_estimator_node <;> dsimp only <;> (repeat' split) <;>
    first
      | exact ⟨_, rfl⟩
      | exact ⟨[], (List.append_nil _).symm⟩

lemma node5_err (c : StageCall Node5Parsed) :
    ErrAppendOnly (mispricing_analyst_node c) := by
  intro s
  cases c <;> unfold mispricing_analyst_node <;> dsimp only <;> (repeat' split) <;>
    first
      | exact ⟨_, rfl⟩
      | exact ⟨[], (List.append_nil _).symm⟩

lemma node6_err (c : StageCall Node6Parsed) (personas : List String) :
    ErrAppendOnly (persona_recommender_node c personas) := by
  intro s
  cases c <;> unfold persona_recommender_node <;> dsimp only <;> (repeat' split) <;>
    first
      | exact ⟨_, rfl⟩
      | exact ⟨[], (List.append_nil _).symm⟩

lemma node7_err (c : StageCall Node7Parsed) :
    ErrAppendOnly (scenario_analyst_node c) := by
  intro s
  cases c <;> unfold scenario_analyst_node <;> dsimp only <;> (repeat' split) <;>
    first
      | exact ⟨_, rfl⟩
      | exact ⟨[], (List.append_nil _).symm⟩

lemma node8_err (c : Node8Call) (personas : List String) :
    ErrAppendOnly (final_suggester_node c personas) := by
  intro s
  cases c <;> unfold final_suggester_node <;> dsimp only <;> (repeat' split) <;>
    first
      | exact ⟨_, rfl⟩
      | exact ⟨[], (List.append_nil _).symm⟩
      | exact ⟨_, (List.append_assoc _ _ _)⟩

/-- C9: the orchestrator never lets a fault escape — the run is a total
function whose error log only grows: (1) over append-only steps the returned
state carries every error of the incoming state; (2) a step fault is
converted into a formatted error-log entry present in the returned state;
(3) all eight concrete stage functions are append-only under every oracle. -/
theorem C9_no_fault_escape :
    (∀ (steps : List (String × (KalshiResearchState → NodeResult)))
       (s : KalshiResearchState), (∀ p ∈ steps, ErrAppendOnly p.2) →
       ∃ tail, (runFrom steps s).errors = s.errors ++ tail) ∧
    (∀ (name : String) (f : KalshiResearchState → NodeResult)
       (rest : List (String × (KalshiResearchState → NodeResult)))
       (s : KalshiResearchState) (m : String),
       (∀ p ∈ rest, ErrAppendOnly p.2) → (f s).fault = some m →
       (("Step " ++ name) ++ " failed: ") ++ m ∈
         (runFrom ((name, f) :: rest) s).errors) ∧
    (∀ (o : Oracles) (personas : List String), ∀ p ∈ researchSteps o personas,
       ErrAppendOnly p.2) := by
  refine ⟨fun steps s h => runFrom_errors steps h s, ?_, ?_⟩
  · intro name f rest s m hrest hfault
    rw [runFrom]
    simp only [hfault]
    split
    · exact List.mem_append_right _ (by simp)
    · obtain ⟨t, ht⟩ := runFrom_errors rest hrest
        { (f s).state with
            errors := (f s).state.errors ++ [(("Step " ++ name) ++ " failed: ") ++ m] }
      rw [ht]
      exact List.mem_append_left _ (List.mem_append_right _ (by simp))
  · intro o personas p hp
    simp only [researchSteps, List.mem_cons, List.not_mem_nil, or_false] at hp
    rcases hp with rfl | rfl | rfl | rfl | rfl | rfl | rfl | rfl
    exacts [node1_err o.ingest, node2_err o.parser, node3_err o.research,
      node4_err o.estimate, node5_err o.misprice, node6_err o.recommend personas,
      node7_err o.scenario, node8_err o.final personas]

/-- Witness for C9: the full concrete pipeline preserves the (empty) initial
error log, and an injected fault at a concrete stage shows up formatted in
the returned error log. -/
theorem C9_no_fault_escape_witness :
    (∃ tail, (runFrom (researchSteps stage2FailOracles DEFAULT_PERSONAS)
        (initState "x")).errors = (initState "x").errors ++ tail) ∧
    (("Step " ++ "scenario_analyst") ++ " failed: ") ++ "boom" ∈
      (runFrom [("scenario_analyst", fun s => ⟨s, some "boom"⟩)] (initState "x")).errors := by
  constructor
  · exact C9_no_fault_escape.1 _ _
      (C9_no_fault_escape.2.2 stage2FailOracles DEFAULT_PERSONAS)
  · exact C9_no_fault_escape.2.1 "scenario_analyst" _ [] (initState "x") "boom"
      (fun p hp => absurd hp (List.not_mem_nil p)) rfl

end KalshiModel
